import Mathlib

/-
Verification of the subtitle-video-synthesis tool against its design notes.
The Python sources (ffmpeg_subtitle_merger.py, batch_merger.py) are shallowly
embedded: pure computations become Lean functions over Nat/Int/Rat and lists,
filesystem and subprocess effects become explicit environment parameters, and
Python exceptions become an Except monad over an enumerated exception type.
Frame rates and durations, which the Python code holds as IEEE doubles, are
modelled as exact rationals; every arithmetic fact proved here is exact in
that model.
-/

/- Python exception classes relevant to the embedded code. In Python,
subprocess.TimeoutExpired is a subclass of subprocess.SubprocessError, and
FileNotFoundError is an OSError (raised by subprocess spawning when the
executable is absent); the except clauses below list caught constructors
explicitly, following the source. -/
inductive PyExc where
  | valueError
  | zeroDivisionError
  | typeError
  | ffmpegError
  | timeoutExpired
  | subprocessError
  | fileNotFoundError
  | otherError
deriving DecidableEq, Repr

/- Python int() applied to a float or Fraction truncates toward zero. -/
def pyInt (q : ℚ) : ℤ := if 0 ≤ q then ⌊q⌋ else ⌈q⌉

theorem pyInt_nonneg {q : ℚ} (h : 0 ≤ q) : 0 ≤ pyInt q := by
  unfold pyInt
  rw [if_pos h]
  exact Int.floor_nonneg.mpr h

theorem pyInt_mono_of_nonneg {a b : ℚ} (ha : 0 ≤ a) (hab : a ≤ b) :
    pyInt a ≤ pyInt b := by
  unfold pyInt
  rw [if_pos ha, if_pos (le_trans ha hab)]
  exact Int.floor_mono hab

theorem pyInt_le_of_le_intCast {q : ℚ} {n : ℤ} (h0 : 0 ≤ q) (h : q ≤ (n : ℚ)) :
    pyInt q ≤ n := by
  unfold pyInt
  rw [if_pos h0]
  calc ⌊q⌋ ≤ ⌊(n : ℚ)⌋ := Int.floor_mono h
    _ = n := Int.floor_intCast n

/- Python min(a, b) on two numbers: the first argument when a <= b, else
the second. Agrees with the order-theoretic min (pyMin_eq_min below) but is
written with an explicit if so that the kernel can evaluate it. -/
def pyMin (a b : ℚ) : ℚ := if a ≤ b then a else b

theorem pyMin_eq_min (a b : ℚ) : pyMin a b = min a b := (min_def a b).symm

/- ffmpeg_subtitle_merger.py lines 72-84: base bitrate selected from the
pixel count by fixed breakpoints. -/
def baseFor (pixels : ℕ) : ℤ :=
  if pixels ≤ 640 * 480 then 1500000
  else if pixels ≤ 1280 * 720 then 3000000
  else if pixels ≤ 1920 * 1080 then 5000000
  else if pixels ≤ 3840 * 2160 then 15000000
  else 40000000

/- ffmpeg_subtitle_merger.py lines 56-88, calculate_smart_bitrate: returns
original_bitrate when positive, otherwise the base bitrate for the pixel
count scaled by min(fps / 25.0, 2.0) and truncated by int(). -/
def calculate_smart_bitrate (width height : ℕ) (fps : ℚ) (original_bitrate : ℤ) : ℤ :=
  if 0 < original_bitrate then original_bitrate
  else pyInt ((baseFor (width * height) : ℚ) * pyMin (fps / 25) 2)

/- Spec 4.2, written from the specification text: if knownBitrate is
positive return it unchanged; else pick the base by the fixed breakpoints
640x480, 1280x720, 1920x1080, 3840x2160; scale by min(frameRate/25, 2) and
truncate to an integer. -/
def estimateSpec (width height : ℕ) (frameRate : ℚ) (knownBitrate : ℤ) : ℤ :=
  if 0 < knownBitrate then knownBitrate
  else
    let base : ℤ :=
      if width * height ≤ 640 * 480 then 1500000
      else if width * height ≤ 1280 * 720 then 3000000
      else if width * height ≤ 1920 * 1080 then 5000000
      else if width * height ≤ 3840 * 2160 then 15000000
      else 40000000
    pyInt ((base : ℚ) * pyMin (frameRate / 25) 2)

theorem baseFor_mono {p1 p2 : ℕ} (h : p1 ≤ p2) : baseFor p1 ≤ baseFor p2 := by
  unfold baseFor
  split_ifs <;> omega

theorem baseFor_pos (p : ℕ) : 0 < baseFor p := by
  unfold baseFor
  split_ifs <;> norm_num

theorem baseFor_le_top (p : ℕ) : baseFor p ≤ 40000000 := by
  unfold baseFor
  split_ifs <;> norm_num

theorem factor_nonneg {fr : ℚ} (h : 0 ≤ fr) : 0 ≤ pyMin (fr / 25) 2 := by
  rw [pyMin_eq_min]
  exact le_min (div_nonneg h (by norm_num)) (by norm_num)

/-- C4: the bitrate estimator is a pure total function agreeing with the
specification: a positive knownBitrate is returned unchanged, otherwise the
base selected by the pixel-count breakpoints is scaled by min(frameRate/25, 2)
and truncated; in particular estimate(1920,1080,25,0) = 5000000,
estimate(1280,720,50,0) = 6000000 and estimate(640,480,10,4000000) = 4000000. -/
theorem c4_calculate_smart_bitrate_spec :
    (∀ (w h : ℕ) (fr : ℚ) (kb : ℤ), calculate_smart_bitrate w h fr kb = estimateSpec w h fr kb) ∧
    calculate_smart_bitrate 1920 1080 25 0 = 5000000 ∧
    calculate_smart_bitrate 1280 720 50 0 = 6000000 ∧
    calculate_smart_bitrate 640 480 10 4000000 = 4000000 := by
  refine ⟨fun w h fr kb => rfl, ?_, ?_, ?_⟩ <;>
    norm_num [calculate_smart_bitrate, baseFor, pyMin, pyInt]

/-- C9: with knownBitrate = 0 the estimator is monotonically non-decreasing in
the pixel count for a fixed valid (positive) frame rate, monotonically
non-decreasing in the frame rate for a fixed resolution, and constant once the
2x frame-rate cap is reached. -/
theorem c9_bitrate_monotone (w1 h1 w2 h2 w h : ℕ) (fr fr1 fr2 : ℚ)
    (hfr : 0 < fr) (hp : w1 * h1 ≤ w2 * h2) (hfr1 : 0 < fr1) (hle : fr1 ≤ fr2) :
    calculate_smart_bitrate w1 h1 fr 0 ≤ calculate_smart_bitrate w2 h2 fr 0 ∧
    calculate_smart_bitrate w h fr1 0 ≤ calculate_smart_bitrate w h fr2 0 ∧
    (50 ≤ fr1 → calculate_smart_bitrate w h fr1 0 = calculate_smart_bitrate w h fr2 0) := by
  unfold calculate_smart_bitrate
  rw [if_neg (by norm_num), if_neg (by norm_num), if_neg (by norm_num),
    if_neg (by norm_num)]
  refine ⟨?_, ?_, ?_⟩
  · apply pyInt_mono_of_nonneg
    · exact mul_nonneg (by exact_mod_cast (baseFor_pos (w1 * h1)).le)
        (factor_nonneg hfr.le)
    · apply mul_le_mul_of_nonneg_right _ (factor_nonneg hfr.le)
      exact_mod_cast baseFor_mono hp
  · apply pyInt_mono_of_nonneg
    · exact mul_nonneg (by exact_mod_cast (baseFor_pos (w * h)).le)
        (factor_nonneg hfr1.le)
    · apply mul_le_mul_of_nonneg_left _ (by exact_mod_cast (baseFor_pos (w * h)).le)
      rw [pyMin_eq_min, pyMin_eq_min]
      exact min_le_min (by linarith) le_rfl
  · intro hcap
    have h1cap : pyMin (fr1 / 25) 2 = 2 := by
      rw [pyMin_eq_min]
      exact min_eq_right (by linarith)
    have h2cap : pyMin (fr2 / 25) 2 = 2 := by
      rw [pyMin_eq_min]
      exact min_eq_right (by linarith)
    rw [h1cap, h2cap]

/-- Witness for c9_bitrate_monotone at concrete inputs. -/
theorem c9_bitrate_monotone_witness :
    calculate_smart_bitrate 640 480 30 0 ≤ calculate_smart_bitrate 1920 1080 30 0 ∧
    calculate_smart_bitrate 1280 720 50 0 ≤ calculate_smart_bitrate 1280 720 60 0 ∧
    (50 ≤ (50 : ℚ) → calculate_smart_bitrate 1280 720 50 0 = calculate_smart_bitrate 1280 720 60 0) :=
  c9_bitrate_monotone 640 480 1920 1080 1280 720 30 50 60
    (by norm_num) (by norm_num) (by norm_num) (by norm_num)

/-- C10: for positive resolution and frame rate with knownBitrate = 0, the
estimator's output is a non-negative integer bounded by 80000000, and it is
not guaranteed positive: a sufficiently small frame rate truncates it to 0. -/
theorem c10_bitrate_bounds (w h : ℕ) (fr : ℚ) (_hw : 1 ≤ w) (_hh : 1 ≤ h)
    (hfr : 0 < fr) :
    (0 ≤ calculate_smart_bitrate w h fr 0 ∧ calculate_smart_bitrate w h fr 0 ≤ 80000000) ∧
    calculate_smart_bitrate 1 1 (1 / 100000) 0 = 0 := by
  constructor
  · unfold calculate_smart_bitrate
    rw [if_neg (by norm_num)]
    constructor
    · exact pyInt_nonneg (mul_nonneg (by exact_mod_cast (baseFor_pos (w * h)).le)
        (factor_nonneg hfr.le))
    · apply pyInt_le_of_le_intCast
      · exact mul_nonneg (by exact_mod_cast (baseFor_pos (w * h)).le)
          (factor_nonneg hfr.le)
      · have hb : (baseFor (w * h) : ℚ) ≤ 40000000 := by
          exact_mod_cast baseFor_le_top (w * h)
        have hf : pyMin (fr / 25) 2 ≤ 2 := by
          rw [pyMin_eq_min]; exact min_le_right _ _
        calc (baseFor (w * h) : ℚ) * pyMin (fr / 25) 2
            ≤ 40000000 * 2 := by
              apply mul_le_mul hb hf (factor_nonneg hfr.le) (by norm_num)
          _ = ((80000000 : ℤ) : ℚ) := by norm_num
  · norm_num [calculate_smart_bitrate, baseFor, pyMin, pyInt]

/-- Witness for c10_bitrate_bounds at concrete inputs. -/
theorem c10_bitrate_bounds_witness :
    (0 ≤ calculate_smart_bitrate 3 3 1 0 ∧ calculate_smart_bitrate 3 3 1 0 ≤ 80000000) ∧
    calculate_smart_bitrate 1 1 (1 / 100000) 0 = 0 :=
  c10_bitrate_bounds 3 3 1 (by norm_num) (by norm_num) (by norm_num)

/- String-parsing helpers modelling the relevant fragment of Python's
numeric-string grammars. The embedded code only ever feeds these functions
ffprobe field values, so the models cover plain decimal notation: an
optional sign, digits, and for floats one optional decimal point
(Python-only extras such as surrounding whitespace, underscores in digit
groups, exponents, inf and nan are outside the modelled grammar). -/

def splitOnChar (c : Char) : List Char → List (List Char)
  | [] => [[]]
  | x :: xs =>
    let r := splitOnChar c xs
    if x = c then [] :: r
    else
      match r with
      | [] => [[x]]
      | hd :: tl => (x :: hd) :: tl

/- Leading sign of a numeric literal: true means negative. -/
def parseSign : List Char → Bool × List Char
  | '-' :: rest => (true, rest)
  | '+' :: rest => (false, rest)
  | cs => (false, cs)

def digitsVal (cs : List Char) : ℕ :=
  cs.foldl (fun a c => a * 10 + (c.toNat - 48)) 0

def parseDigits (cs : List Char) : Option ℕ :=
  if cs ≠ [] ∧ cs.all Char.isDigit then some (digitsVal cs) else none

/- Python int(str) on a plain optionally-signed digit string. -/
def parsePyInt (s : String) : Option ℤ :=
  let sign := parseSign s.toList
  (parseDigits sign.2).map (fun n => if sign.1 then -(n : ℤ) else (n : ℤ))

/- Python float(str) on plain decimal notation: sign, integer digits, and
an optional fractional part after one decimal point; at least one digit must
appear on one side of the point. The value int.frac equals the exact
rational (int * 10^k + frac) / 10^k, built with mkRat so that the kernel
can evaluate it. -/
def parsePyFloat (s : String) : Option ℚ :=
  let sign := parseSign s.toList
  let val : Option ℚ :=
    match splitOnChar '.' sign.2 with
    | [intPart] => (parseDigits intPart).map (fun n => (n : ℚ))
    | [intPart, fracPart] =>
      if (intPart.all Char.isDigit ∧ fracPart.all Char.isDigit) ∧
          (intPart ≠ [] ∨ fracPart ≠ []) then
        some (mkRat (digitsVal intPart * 10 ^ fracPart.length + digitsVal fracPart)
          (10 ^ fracPart.length))
      else none
    | _ => none
  val.map (fun q => if sign.1 then -q else q)

/- fractions.Fraction(str) on a "numerator/denominator" string: optional
sign and digits for the numerator, unsigned digits for the denominator; a
zero denominator raises ZeroDivisionError, a malformed string ValueError.
The result is the exact rational numerator/denominator (mkRat n d = n / d,
by Rat.mkRat_eq_div). -/
def parseFractionStr (s : String) : Except PyExc ℚ :=
  match splitOnChar '/' s.toList with
  | [numPart, denPart] =>
    match parseDigits (parseSign numPart).2, parseDigits denPart with
    | some n, some d =>
      if d = 0 then .error .zeroDivisionError
      else .ok (if (parseSign numPart).1 then -(mkRat n d) else mkRat n d)
    | _, _ => .error .valueError
  | _ => .error .valueError

/- ffmpeg_subtitle_merger.py lines 46-51, the body of the try block of
parse_frame_rate: strings containing a slash go through Fraction, the rest
through float. -/
def parseFrameRateBody (s : String) : Except PyExc ℚ :=
  if s.toList.contains '/' then parseFractionStr s
  else
    match parsePyFloat s with
    | some q => .ok q
    | none => .error .valueError

/- ffmpeg_subtitle_merger.py lines 36-54, parse_frame_rate: the body's
ValueError and ZeroDivisionError are caught and replaced by the 25.0
fallback (with a logged warning); any other exception would propagate. -/
def parse_frame_rate_exc (s : String) : Except PyExc ℚ :=
  match parseFrameRateBody s with
  | .ok q => .ok q
  | .error e =>
    if e = .valueError ∨ e = .zeroDivisionError then .ok 25 else .error e

/- Total projection of parse_frame_rate_exc; the error branch is provably
unreachable (theorem c8_parse_frame_rate_total). -/
def parse_frame_rate (s : String) : ℚ :=
  match parse_frame_rate_exc s with
  | .ok q => q
  | .error _ => 25

theorem parseFrameRateBody_error_caught (s : String) (e : PyExc)
    (h : parseFrameRateBody s = .error e) :
    e = .valueError ∨ e = .zeroDivisionError := by
  unfold parseFrameRateBody parseFractionStr at h
  split at h
  all_goals try split at h
  all_goals try split at h
  all_goals try split at h
  all_goals simp_all

/-- C8: parse_frame_rate never lets an exception escape: the only exceptions
its body can raise are ValueError and ZeroDivisionError, and both are caught
and resolved to the 25.0 fallback; a rational string is evaluated exactly
("30000/1001" gives the exact rational 30000/1001, "25/1" gives 25, and a
zero denominator such as "30/0" falls back to 25 without a division error),
and unparseable input falls back to 25. -/
theorem c8_parse_frame_rate_total :
    (∀ s : String, ∃ q : ℚ, parse_frame_rate_exc s = .ok q) ∧
    parse_frame_rate_exc "30000/1001" = .ok (30000 / 1001 : ℚ) ∧
    parse_frame_rate_exc "25/1" = .ok 25 ∧
    parse_frame_rate_exc "30/0" = .ok 25 ∧
    parse_frame_rate_exc "not-a-rate" = .ok 25 := by
  refine ⟨?_, ?_, ?_, ?_, ?_⟩
  · intro s
    cases hb : parseFrameRateBody s with
    | ok q => exact ⟨q, by unfold parse_frame_rate_exc; rw [hb]⟩
    | error e =>
      refine ⟨25, ?_⟩
      unfold parse_frame_rate_exc
      rw [hb]
      exact if_pos (parseFrameRateBody_error_caught s e hb)
  · show Except.ok (mkRat 30000 1001) = _
    rw [Rat.mkRat_eq_div]
    norm_num
  · rfl
  · rfl
  · rfl

/- One entry of the streams array of the ffprobe JSON output, restricted to
the fields probe_video_info reads. ffprobe emits width and height as JSON
integers and r_frame_rate, duration and bit_rate as strings; an absent field
is none. -/
structure ProbeStream where
  codec_type : String
  width : Option ℤ
  height : Option ℤ
  r_frame_rate : Option String
  duration : Option String
  bit_rate : Option String
  codec_name : Option String
  pix_fmt : Option String

/- The video-information dictionary built by probe_video_info. -/
structure VideoInfo where
  width : ℤ
  height : ℤ
  fps : ℚ
  duration : ℚ
  bitrate : ℤ
  codec : String
  pix_fmt : String

/- Spec section 7 probe error taxonomy: the two fatal probe failures. In the
source both are ValueError raised inside probe_video_info and re-wrapped as
RuntimeError; the spec names them NoVideoStream and MissingResolution. -/
inductive ProbeErr where
  | noVideoStream
  | missingResolution
deriving DecidableEq, Repr

/- ffmpeg_subtitle_merger.py lines 90-154, probe_video_info: select the
first stream whose codec_type is video; fail when there is none; read width
and height with default 0 and fail when either is 0; parse the frame rate
with parse_frame_rate (default rational string 25/1); parse duration and
bit_rate best-effort, degrading to 0 with a logged warning when the field is
absent or unparseable; codec_name and pix_fmt default to unknown and
yuv420p. -/
def probe_video_info (streams : List ProbeStream) : Except ProbeErr VideoInfo :=
  match streams.find? (fun st => st.codec_type == "video") with
  | none => .error .noVideoStream
  | some st =>
    let width := st.width.getD 0
    let height := st.height.getD 0
    if width = 0 ∨ height = 0 then .error .missingResolution
    else
      .ok { width := width
            height := height
            fps := parse_frame_rate (st.r_frame_rate.getD "25/1")
            duration := match st.duration with
              | none => 0
              | some d => (parsePyFloat d).getD 0
            bitrate := match st.bit_rate with
              | none => 0
              | some b => (parsePyInt b).getD 0
            codec := st.codec_name.getD "unknown"
            pix_fmt := st.pix_fmt.getD "yuv420p" }

/-- C7: probe_video_info fails with NoVideoStream exactly when no stream has
codec type video; fails with MissingResolution when the first video stream
has width or height absent or zero; and otherwise succeeds, with duration
and bitrate degrading to 0 whenever their fields are absent or unparseable,
never failing the probe. -/
theorem c7_probe_video_info_errors :
    (∀ streams : List ProbeStream,
      streams.find? (fun st => st.codec_type == "video") = none →
      probe_video_info streams = .error .noVideoStream) ∧
    (∀ (streams : List ProbeStream) (st : ProbeStream),
      streams.find? (fun st => st.codec_type == "video") = some st →
      (st.width.getD 0 = 0 ∨ st.height.getD 0 = 0) →
      probe_video_info streams = .error .missingResolution) ∧
    (∀ (streams : List ProbeStream) (st : ProbeStream),
      streams.find? (fun st => st.codec_type == "video") = some st →
      st.width.getD 0 ≠ 0 → st.height.getD 0 ≠ 0 →
      ∃ info : VideoInfo, probe_video_info streams = .ok info ∧
        info.duration = (match st.duration with
          | none => 0
          | some d => (parsePyFloat d).getD 0) ∧
        info.bitrate = (match st.bit_rate with
          | none => 0
          | some b => (parsePyInt b).getD 0)) := by
  refine ⟨?_, ?_, ?_⟩
  · intro streams hfind
    unfold probe_video_info
    rw [hfind]
  · intro streams st hfind hzero
    unfold probe_video_info
    rw [hfind]
    exact if_pos hzero
  · intro streams st hfind hw hh
    unfold probe_video_info
    rw [hfind]
    dsimp only
    rw [if_neg (by push_neg; exact ⟨hw, hh⟩)]
    exact ⟨_, rfl, rfl, rfl⟩

/- Concrete probe results exercising the three branches of c7. -/
def sC7audio : ProbeStream :=
  { codec_type := "audio", width := none, height := none, r_frame_rate := none,
    duration := none, bit_rate := none, codec_name := none, pix_fmt := none }

def sC7noRes : ProbeStream :=
  { codec_type := "video", width := some 0, height := some 1080,
    r_frame_rate := none, duration := none, bit_rate := none,
    codec_name := none, pix_fmt := none }

def sC7degrade : ProbeStream :=
  { codec_type := "video", width := some 1920, height := some 1080,
    r_frame_rate := some "25/1", duration := some "not-a-number",
    bit_rate := some "not-a-number", codec_name := some "h264",
    pix_fmt := some "yuv420p" }

/-- Witness for c7_probe_video_info_errors at concrete probe results. -/
theorem c7_probe_video_info_errors_witness :
    probe_video_info [sC7audio] = .error .noVideoStream ∧
    probe_video_info [sC7noRes] = .error .missingResolution ∧
    (∃ info : VideoInfo, probe_video_info [sC7degrade] = .ok info ∧
      info.duration = (match sC7degrade.duration with
        | none => 0
        | some d => (parsePyFloat d).getD 0) ∧
      info.bitrate = (match sC7degrade.bit_rate with
        | none => 0
        | some b => (parsePyInt b).getD 0)) :=
  ⟨c7_probe_video_info_errors.1 [sC7audio] rfl,
   c7_probe_video_info_errors.2.1 [sC7noRes] sC7noRes rfl (Or.inl rfl),
   c7_probe_video_info_errors.2.2 [sC7degrade] sC7degrade rfl
     (by decide) (by decide)⟩

/- ASCII lowercasing, the effect of Python str.lower() on the ASCII
extension strings compared here. -/
def asciiLower (c : Char) : Char :=
  if 'A' ≤ c ∧ c ≤ 'Z' then Char.ofNat (c.toNat + 32) else c

def strLower (s : String) : String := String.mk (s.toList.map asciiLower)

/- Characters of a list strictly before its first occurrence of c, or none
when c does not occur. -/
def takeUntil (c : Char) : List Char → Option (List Char)
  | [] => none
  | x :: xs => if x = c then some [] else (takeUntil c xs).map (x :: ·)

/- The final path component, with / as the separator (the paths validated
by the embedded tests are POSIX-style). -/
def baseName (cs : List Char) : List Char :=
  match takeUntil '/' cs.reverse with
  | none => cs
  | some revTail => revTail.reverse

/- pathlib PurePath.suffix: the substring of the final component from its
last dot, empty when that dot is absent, leading (a hidden file) or
trailing. -/
def pathSuffix (p : String) : String :=
  let name := baseName p.toList
  match takeUntil '.' name.reverse with
  | none => ""
  | some revTail =>
    let i := name.length - 1 - revTail.length
    if 0 < i ∧ i < name.length - 1 then String.mk ('.' :: revTail.reverse) else ""

/- ffmpeg_subtitle_merger.py lines 26-27: the two extension whitelists. -/
def supported_video_formats : List String :=
  [".mps", ".mp4", ".avi", ".mkv", ".mov", ".ts", ".m2ts"]

def supported_subtitle_formats : List String :=
  [".ass", ".srt", ".vtt", ".sub"]

/- What validate_inputs observes about one path: os.path.exists,
os.access(..., R_OK) and os.path.getsize. -/
structure FileStat where
  present : Bool
  readable : Bool
  size : ℕ
deriving DecidableEq, Repr

inductive WhichFile where
  | video
  | subtitle
deriving DecidableEq, Repr

/- Spec section 7 validation taxonomy. The source raises FileNotFoundError
for notFound, PermissionError for notReadable and ValueError for both
unsupportedFormat and emptyFile, telling the last two apart by distinct
messages; each check therefore reports a distinct kind and file. -/
inductive VKind where
  | notFound
  | notReadable
  | unsupportedFormat
  | emptyFile
deriving DecidableEq, Repr

structure VErr where
  kind : VKind
  file : WhichFile
deriving DecidableEq, Repr

/- ffmpeg_subtitle_merger.py lines 156-198, validate_inputs: existence of
the video then the subtitle, readability of the video then the subtitle,
lowercased extension membership in the video then the subtitle whitelist,
then non-zero size of the video then the subtitle, raising on the first
failing check. -/
def validate_inputs (fs : String → FileStat) (video_path subtitle_path : String) :
    Except VErr Unit :=
  if !(fs video_path).present then .error ⟨.notFound, .video⟩
  else if !(fs subtitle_path).present then .error ⟨.notFound, .subtitle⟩
  else if !(fs video_path).readable then .error ⟨.notReadable, .video⟩
  else if !(fs subtitle_path).readable then .error ⟨.notReadable, .subtitle⟩
  else if !(supported_video_formats.contains (strLower (pathSuffix video_path))) then
    .error ⟨.unsupportedFormat, .video⟩
  else if !(supported_subtitle_formats.contains (strLower (pathSuffix subtitle_path))) then
    .error ⟨.unsupportedFormat, .subtitle⟩
  else if (fs video_path).size == 0 then .error ⟨.emptyFile, .video⟩
  else if (fs subtitle_path).size == 0 then .error ⟨.emptyFile, .subtitle⟩
  else .ok ()

/- Spec 4.4, written from the specification text: a sequence of checks, each
paired with its error kind, short-circuiting on the first failure. -/
def firstFailing : List (Bool × VErr) → Except VErr Unit
  | [] => .ok ()
  | (bad, e) :: rest => if bad then .error e else firstFailing rest

/- The check sequence of spec 4.4 in its stated order: existence (video,
then subtitle), readability (video, then subtitle), extension whitelist
membership (video, then subtitle), non-zero file size (video, then
subtitle). -/
def checkSequence (fs : String → FileStat) (video_path subtitle_path : String) :
    List (Bool × VErr) :=
  [(!(fs video_path).present, ⟨.notFound, .video⟩),
   (!(fs subtitle_path).present, ⟨.notFound, .subtitle⟩),
   (!(fs video_path).readable, ⟨.notReadable, .video⟩),
   (!(fs subtitle_path).readable, ⟨.notReadable, .subtitle⟩),
   (!(supported_video_formats.contains (strLower (pathSuffix video_path))),
     ⟨.unsupportedFormat, .video⟩),
   (!(supported_subtitle_formats.contains (strLower (pathSuffix subtitle_path))),
     ⟨.unsupportedFormat, .subtitle⟩),
   ((fs video_path).size == 0, ⟨.emptyFile, .video⟩),
   ((fs subtitle_path).size == 0, ⟨.emptyFile, .subtitle⟩)]

/- A small filesystem for the two validator test cases: an empty video of
supported extension, a healthy subtitle, and a non-empty .txt file. -/
def fsC6 : String → FileStat := fun p =>
  if p = "/t/a.mp4" then ⟨true, true, 0⟩
  else if p = "/t/a.ass" then ⟨true, true, 5⟩
  else if p = "/t/b.txt" then ⟨true, true, 7⟩
  else ⟨false, false, 0⟩

/-- C6: validate_inputs runs exactly the spec's check sequence in order,
short-circuiting on the first failing check, and the eight checks carry
pairwise distinct error kinds; in particular a zero-byte video of supported
extension fails as EmptyFile and a non-empty .txt video fails as
UnsupportedFormat. -/
theorem c6_validate_inputs_order :
    (∀ (fs : String → FileStat) (v s : String),
      validate_inputs fs v s = firstFailing (checkSequence fs v s)) ∧
    (∀ (fs : String → FileStat) (v s : String),
      ((checkSequence fs v s).map (fun e => e.2)).Nodup) ∧
    validate_inputs fsC6 "/t/a.mp4" "/t/a.ass" = .error ⟨.emptyFile, .video⟩ ∧
    validate_inputs fsC6 "/t/b.txt" "/t/a.ass" = .error ⟨.unsupportedFormat, .video⟩ := by
  refine ⟨fun fs v s => rfl, ?_, rfl, rfl⟩
  intro fs v s
  show ([⟨.notFound, .video⟩, ⟨.notFound, .subtitle⟩,
    ⟨.notReadable, .video⟩, ⟨.notReadable, .subtitle⟩,
    ⟨.unsupportedFormat, .video⟩, ⟨.unsupportedFormat, .subtitle⟩,
    ⟨.emptyFile, .video⟩, ⟨.emptyFile, .subtitle⟩] : List VErr).Nodup
  decide

/- Result of subprocess.run for the encoder-listing invocation. -/
structure Stage1Result where
  returncode : ℤ
  stdout : String

/- The environment check_nvidia_support runs in: the outcome of the
stage-1 encoder-listing subprocess and of the stage-2 trial encode, each
either a value or a raised exception. -/
structure NvidiaEnv where
  stage1 : Except PyExc Stage1Result
  stage2 : Except PyExc Unit

/- Substring containment, modelling the Python membership test pat in s. -/
def hasSub (pat : List Char) : List Char → Bool
  | [] => pat.isEmpty
  | c :: rest => pat.isPrefixOf (c :: rest) || hasSub pat rest

/- ffmpeg_subtitle_merger.py lines 200-238, check_nvidia_support: stage 1
returns true when the listing succeeds with exit code 0 and the output
contains h264_nvenc, and catches TimeoutExpired, SubprocessError and
FileNotFoundError; otherwise control falls through to stage 2, whose
except clause catches only ffmpeg.Error and TimeoutExpired (mapped to
false); any other stage-2 exception propagates to the caller. -/
def check_nvidia_support (env : NvidiaEnv) : Except PyExc Bool :=
  let stage2 : Except PyExc Bool :=
    match env.stage2 with
    | .ok _ => .ok true
    | .error e =>
      if e = .ffmpegError ∨ e = .timeoutExpired then .ok false else .error e
  match env.stage1 with
  | .ok r =>
    if r.returncode == 0 && hasSub "h264_nvenc".toList r.stdout.toList then .ok true
    else stage2
  | .error e =>
    if e = .timeoutExpired ∨ e = .subprocessError ∨ e = .fileNotFoundError then stage2
    else .error e

/-- C2: contrary to the claim, check_nvidia_support can raise: the stage-2
except clause catches only ffmpeg.Error and TimeoutExpired, so with the
external tool absent (FileNotFoundError from both stages) the detector
propagates FileNotFoundError to its caller instead of returning a boolean;
a stage-2 error of a caught class does resolve to false, and a successful
stage-1 listing containing h264_nvenc resolves to true. -/
theorem c2_check_nvidia_support_raises :
    check_nvidia_support ⟨.error .fileNotFoundError, .error .fileNotFoundError⟩ =
      .error .fileNotFoundError ∧
    check_nvidia_support ⟨.error .fileNotFoundError, .error .ffmpegError⟩ = .ok false ∧
    check_nvidia_support ⟨.ok ⟨0, "encoders: h264_nvenc"⟩, .error .typeError⟩ = .ok true :=
  ⟨rfl, rfl, rfl⟩

/- Character-wise replacement, the effect of Python str.replace with a
single-character target. -/
def replaceChar (c : Char) (rep : List Char) : List Char → List Char
  | [] => []
  | x :: xs => (if x = c then rep else [x]) ++ replaceChar c rep xs

/- ffmpeg_subtitle_merger.py lines 240-263, escape_subtitle_path applied to
the absolute path (os.path.abspath is the identity on the absolute POSIX
paths used below): on Windows (isWindows, the os.name == nt branch)
backslashes become forward slashes and colons gain a backslash, then on
every platform the brackets are escaped. -/
def escape_subtitle_path (isWindows : Bool) (abs_path : String) : String :=
  let p := abs_path.toList
  let p := if isWindows then replaceChar ':' ['\\', ':'] (replaceChar '\\' ['/'] p) else p
  String.mk (replaceChar ']' ['\\', ']'] (replaceChar '[' ['\\', '['] p))

/- The keyword arguments of the subtitle burn-in filter. -/
structure SubtitleFilterArgs where
  filename : String
  force_style : Option String
deriving DecidableEq, Repr

/- ffmpeg_subtitle_merger.py lines 324-333: merge_video_subtitle builds the
subtitles filter with filename set to the subtitle_path argument itself
(escape_subtitle_path is never called) and force_style passed through when
present. -/
def mergeSubtitleFilterArgs (subtitle_path : String) (force_style : Option String) :
    SubtitleFilterArgs :=
  { filename := subtitle_path, force_style := force_style }

/-- C1: contrary to the claim, the merge invocation hands the subtitles
filter the raw subtitle path, not its escaped form: the filter filename is
always the unmodified input, and on a bracketed path it differs from what
escape_subtitle_path (defined but never called by merge_video_subtitle)
would produce. -/
theorem c1_filter_path_not_escaped :
    (∀ (p : String) (fs : Option String), (mergeSubtitleFilterArgs p fs).filename = p) ∧
    escape_subtitle_path false "/tmp/sub[1].ass" = "/tmp/sub\\[1\\].ass" ∧
    (mergeSubtitleFilterArgs "/tmp/sub[1].ass" none).filename ≠
      escape_subtitle_path false "/tmp/sub[1].ass" := by
  refine ⟨fun p fs => rfl, rfl, ?_⟩
  decide

/- A file found by the recursive directory scan, split the way the pairing
code reads it with pathlib: parent directory as a component list, stem, and
final extension. -/
structure MediaFile where
  dir : List String
  stem : String
  ext : String
deriving DecidableEq, Repr

/- Python str.startswith. -/
def strStartsWith (s pre : String) : Bool := pre.toList.isPrefixOf s.toList

/- batch_merger.py lines 61-63: the stem condition of the pairing loop,
with its three disjuncts: equal stems, subtitle stem extending the video
stem after a dot, or video stem extending the subtitle stem after a dot. -/
def matchesStem (videoStem subStem : String) : Bool :=
  subStem == videoStem || strStartsWith subStem (videoStem ++ ".") ||
    strStartsWith videoStem (subStem ++ ".")

/- batch_merger.py lines 64-74: Path.relative_to(other) succeeds exactly
when other is an ancestor of or equal to the path, so the accepted
directory relation is subtitle directory ancestor-or-equal of the video
directory or descendant of it (the code's final equality fallback is
subsumed by either branch). -/
def dirRelated (videoDir subDir : List String) : Bool :=
  subDir.isPrefixOf videoDir || videoDir.isPrefixOf subDir

/- batch_merger.py lines 49-90, find_video_subtitle_pairs with the two glob
result lists abstracted as arguments: for each video in scan order, collect
the subtitles satisfying the stem and directory conditions in scan order,
prefer the first exact stem match, otherwise take the first candidate, and
drop the video when there is none. -/
def find_video_subtitle_pairs (videos subs : List MediaFile) :
    List (MediaFile × MediaFile) :=
  videos.filterMap (fun v =>
    let ms := subs.filter (fun s => matchesStem v.stem s.stem && dirRelated v.dir s.dir)
    match ms.find? (fun s => s.stem == v.stem) with
    | some best => some (v, best)
    | none => ms.head?.map (fun best => (v, best)))

/- The stem condition exactly as the claim states it: the subtitle stem
equals the video stem or extends it after a literal dot; the claim omits
the reverse extension direction. -/
def claimMatchesStem (videoStem subStem : String) : Bool :=
  subStem == videoStem || strStartsWith subStem (videoStem ++ ".")

/- The pairing function exactly as the claim states it, differing from the
source only in the stem condition. -/
def claimFindPairs (videos subs : List MediaFile) : List (MediaFile × MediaFile) :=
  videos.filterMap (fun v =>
    let ms := subs.filter (fun s => claimMatchesStem v.stem s.stem && dirRelated v.dir s.dir)
    match ms.find? (fun s => s.stem == v.stem) with
    | some best => some (v, best)
    | none => ms.head?.map (fun best => (v, best)))

/- The stem condition of the amended claim: equal stems, or either stem
extending the other after a literal dot. -/
def amendedMatchesStem (videoStem subStem : String) : Bool :=
  subStem == videoStem || strStartsWith subStem (videoStem ++ ".") ||
    strStartsWith videoStem (subStem ++ ".")

/- The pairing function of the amended claim. -/
def amendedFindPairs (videos subs : List MediaFile) : List (MediaFile × MediaFile) :=
  videos.filterMap (fun v =>
    let ms := subs.filter (fun s => amendedMatchesStem v.stem s.stem && dirRelated v.dir s.dir)
    match ms.find? (fun s => s.stem == v.stem) with
    | some best => some (v, best)
    | none => ms.head?.map (fun best => (v, best)))

def vDotted : MediaFile := ⟨["d"], "movie.chs", ".mp4"⟩

def sPlain : MediaFile := ⟨["d"], "movie", ".ass"⟩

/-- C3 counterexample: the claim's pairing rule is not the code's: for video
movie.chs.mp4 and subtitle movie.ass in one directory, the source pairs them
through the disjunct video_stem.startswith(subtitle_stem + dot), while the
claim's rule (subtitle stem equal to or extending the video stem) yields no
candidate. -/
theorem c3_find_pairs_counterexample :
    find_video_subtitle_pairs [vDotted] [sPlain] ≠ claimFindPairs [vDotted] [sPlain] := by
  decide

def movieMp4 : MediaFile := ⟨["d"], "movie", ".mp4"⟩

def movieAss : MediaFile := ⟨["d"], "movie", ".ass"⟩

def otherSrt : MediaFile := ⟨["d"], "other", ".srt"⟩

/-- C3 amended: findPairs pairs a video with a subtitle exactly when the
stems are equal, or one stem extends the other after a literal dot,
restricted to subtitles whose directory is an ancestor, descendant or equal
to the video's; exact stem matches are preferred, otherwise the first
candidate in scan order is taken, and a video with no candidate is omitted;
for movie.mp4, movie.ass, other.srt in one directory the result is exactly
(movie.mp4, movie.ass). -/
theorem c3_find_pairs_amended :
    (∀ videos subs : List MediaFile,
      find_video_subtitle_pairs videos subs = amendedFindPairs videos subs) ∧
    find_video_subtitle_pairs [movieMp4] [movieAss, otherSrt] = [(movieMp4, movieAss)] := by
  exact ⟨fun videos subs => rfl, by decide⟩

/- What one iteration of the batch loop observes: whether the derived
output path already exists on disk, and whether merge_video_subtitle
completes without raising for the given pair. -/
structure BatchEnv where
  outputDoesExist : MediaFile → Bool
  mergeOk : MediaFile → MediaFile → Bool

/- batch_merger.py lines 146-147: the output file derived by inserting the
suffix between the video's stem and extension, in the video's directory. -/
def outputFile (v : MediaFile) (sfx : String) : MediaFile :=
  ⟨v.dir, v.stem ++ sfx, v.ext⟩

/- batch_merger.py lines 141-167, one iteration of the processing loop over
the accumulator (success count, failure list): an existing output skips the
pair, a successful merge increments the count, and an exception appends the
video to the failure list. -/
def batchStep (env : BatchEnv) (sfx : String) (acc : ℕ × List MediaFile)
    (pr : MediaFile × MediaFile) : ℕ × List MediaFile :=
  if env.outputDoesExist (outputFile pr.1 sfx) then acc
  else if env.mergeOk pr.1 pr.2 then (acc.1 + 1, acc.2)
  else (acc.1, acc.2 ++ [pr.1])

/- The processing loop of batch_merge, lines 137-167. -/
def batchRun (env : BatchEnv) (sfx : String)
    (pairs : List (MediaFile × MediaFile)) : ℕ × List MediaFile :=
  pairs.foldl (batchStep env sfx) (0, [])

/- batch_merger.py lines 92-178, batch_merge with the discovered pairs
abstracted as an argument: zero pairs return False before any processing,
dry-run prints and returns True, and otherwise the loop runs and the result
is whether the failure list came out empty (line 178). -/
def batch_merge (env : BatchEnv) (sfx : String)
    (pairs : List (MediaFile × MediaFile)) (dry_run : Bool) : Bool :=
  if pairs = [] then false
  else if dry_run then true
  else ((batchRun env sfx pairs).2).isEmpty

theorem batchRun_foldl_closed (env : BatchEnv) (sfx : String)
    (pairs : List (MediaFile × MediaFile)) (n : ℕ) (l : List MediaFile) :
    pairs.foldl (batchStep env sfx) (n, l) =
      (n + (pairs.filter (fun pr => !env.outputDoesExist (outputFile pr.1 sfx) &&
        env.mergeOk pr.1 pr.2)).length,
       l ++ (pairs.filter (fun pr => !env.outputDoesExist (outputFile pr.1 sfx) &&
        !env.mergeOk pr.1 pr.2)).map (fun pr => pr.1)) := by
  induction pairs generalizing n l with
  | nil => simp
  | cons pr rest ih =>
    rw [List.foldl_cons]
    cases hex : env.outputDoesExist (outputFile pr.1 sfx) with
    | true =>
      have hstep : batchStep env sfx (n, l) pr = (n, l) := by
        simp [batchStep, hex]
      rw [hstep, ih]
      simp [List.filter_cons, hex]
    | false =>
      cases hok : env.mergeOk pr.1 pr.2 with
      | true =>
        have hstep : batchStep env sfx (n, l) pr = (n + 1, l) := by
          simp [batchStep, hex, hok]
        rw [hstep, ih]
        refine Prod.ext ?_ ?_
        · simp [List.filter_cons, hex, hok]
          omega
        · simp [List.filter_cons, hex, hok]
      | false =>
        have hstep : batchStep env sfx (n, l) pr = (n, l ++ [pr.1]) := by
          simp [batchStep, hex, hok]
        rw [hstep, ih]
        refine Prod.ext ?_ ?_
        · simp [List.filter_cons, hex, hok]
        · simp [List.filter_cons, hex, hok]

theorem batchRun_closed (env : BatchEnv) (sfx : String)
    (pairs : List (MediaFile × MediaFile)) :
    batchRun env sfx pairs =
      ((pairs.filter (fun pr => !env.outputDoesExist (outputFile pr.1 sfx) &&
        env.mergeOk pr.1 pr.2)).length,
       (pairs.filter (fun pr => !env.outputDoesExist (outputFile pr.1 sfx) &&
        !env.mergeOk pr.1 pr.2)).map (fun pr => pr.1)) := by
  unfold batchRun
  rw [batchRun_foldl_closed]
  simp

/-- C5: in batch mode with dryRun false, over any non-empty discovered pair
list each pair is classified independently of the others: the success count
is the number of pairs whose output does not already exist and whose merge
succeeds, the failure list collects exactly the videos of pairs whose output
does not exist and whose merge raises (so a failure never stops later
pairs, and a skipped pair counts as neither), and the batch reports full
success exactly when that failure list is empty. -/
theorem c5_batch_merge_isolation (env : BatchEnv) (sfx : String)
    (pairs : List (MediaFile × MediaFile)) (hne : pairs ≠ []) :
    (batchRun env sfx pairs).1 =
      (pairs.filter (fun pr => !env.outputDoesExist (outputFile pr.1 sfx) &&
        env.mergeOk pr.1 pr.2)).length ∧
    (batchRun env sfx pairs).2 =
      (pairs.filter (fun pr => !env.outputDoesExist (outputFile pr.1 sfx) &&
        !env.mergeOk pr.1 pr.2)).map (fun pr => pr.1) ∧
    (batch_merge env sfx pairs false = true ↔
      pairs.filter (fun pr => !env.outputDoesExist (outputFile pr.1 sfx) &&
        !env.mergeOk pr.1 pr.2) = []) := by
  have h := batchRun_closed env sfx pairs
  refine ⟨by rw [h], by rw [h], ?_⟩
  unfold batch_merge
  rw [if_neg hne]
  rw [h]
  simp

def vOutExists : MediaFile := ⟨["d"], "a", ".mp4"⟩

def sOutExists : MediaFile := ⟨["d"], "a", ".ass"⟩

def vFails : MediaFile := ⟨["d"], "b", ".mp4"⟩

def sFails : MediaFile := ⟨["d"], "b", ".ass"⟩

def vSucceeds : MediaFile := ⟨["d"], "c", ".mp4"⟩

def sSucceeds : MediaFile := ⟨["d"], "c", ".ass"⟩

def pairsC5 : List (MediaFile × MediaFile) :=
  [(vOutExists, sOutExists), (vFails, sFails), (vSucceeds, sSucceeds)]

/- A batch environment where the first pair's output already exists and the
second pair's merge raises. -/
def envC5 : BatchEnv :=
  { outputDoesExist := fun f => f == outputFile vOutExists "_with_subtitles",
    mergeOk := fun v _ => !(v == vFails) }

/-- Witness for c5_batch_merge_isolation at a concrete three-pair batch. -/
theorem c5_batch_merge_isolation_witness :
    (batchRun envC5 "_with_subtitles" pairsC5).1 =
      (pairsC5.filter (fun pr => !envC5.outputDoesExist (outputFile pr.1 "_with_subtitles") &&
        envC5.mergeOk pr.1 pr.2)).length ∧
    (batchRun envC5 "_with_subtitles" pairsC5).2 =
      (pairsC5.filter (fun pr => !envC5.outputDoesExist (outputFile pr.1 "_with_subtitles") &&
        !envC5.mergeOk pr.1 pr.2)).map (fun pr => pr.1) ∧
    (batch_merge envC5 "_with_subtitles" pairsC5 false = true ↔
      pairsC5.filter (fun pr => !envC5.outputDoesExist (outputFile pr.1 "_with_subtitles") &&
        !envC5.mergeOk pr.1 pr.2) = []) :=
  c5_batch_merge_isolation envC5 "_with_subtitles" pairsC5 (by decide)
